import Mathlib

set_option linter.unusedVariables false

/-!
Shallow embedding of the `@sky7/db` unification facade: the connection-status
model and result envelope (src/types.ts), the MongoDB adapter
(src/mongo/index.ts), the Firebase adapter (src/firebase.ts) and the DB
facade (src/index.ts).  Underlying driver/SDK calls are modelled by an
explicit `Outcome` argument: the driver either returns a value or throws.
Errors are modelled by their message strings.
-/

namespace DbSpec

/-- `ConnectionStatus` enum from src/types.ts (DISCONNECTED, CONNECTING,
CONNECTED, RECONNECTING, ERROR). -/
inductive ConnectionStatus where
  | disconnected
  | connecting
  | connected
  | reconnecting
  | error
deriving DecidableEq

/-- `OperationResult<T>` from src/types.ts: `{success, data?, error?, message?}`.
The `Error` object is modelled by its message string. -/
structure OperationResult (T : Type) where
  success : Bool
  data : Option T := none
  error : Option String := none
  message : Option String := none
deriving DecidableEq

/-- Outcome of an awaited underlying client/SDK call: a normal return or a
thrown error (carrying its message). -/
inductive Outcome (T : Type) where
  | ok (value : T)
  | thrown (msg : String)
deriving DecidableEq

/-- Whether an `Except` models a normal return (`ok`) rather than a thrown
error. -/
def isOkE {T : Type} : Except String T → Bool
  | .ok _ => true
  | .error _ => false

/-- `MongoDBOptions` from src/types.ts (pool/timeout options are consumed by
the driver constructor and never read back by the adapter). -/
structure MongoDBOptions where
  uri : String
  dbName : String
deriving DecidableEq

/-- The mutable fields of the `MongoDB` class (src/mongo/index.ts lines
19-25): the `Db` handle (`db`, modelled by the database name it was opened
on), `connectionStatus`, `reconnectAttempts` and `maxReconnectAttempts`. -/
structure MongoState where
  dbName : String
  db : Option String
  connectionStatus : ConnectionStatus
  reconnectAttempts : Nat
  maxReconnectAttempts : Nat
deriving DecidableEq

/-- `MongoDB` constructor (src/mongo/index.ts lines 27-43): stores the db
name; `db` starts `null`, status starts DISCONNECTED, `reconnectAttempts`
starts 0 and `maxReconnectAttempts` starts 5. -/
def mongoNew (options : MongoDBOptions) : MongoState :=
  { dbName := options.dbName
    db := none
    connectionStatus := .disconnected
    reconnectAttempts := 0
    maxReconnectAttempts := 5 }

namespace MongoDB

/-- `serverOpening` client event handler (src/mongo/index.ts lines 69-72). -/
def onServerOpening (s : MongoState) : MongoState :=
  { s with connectionStatus := .connecting }

/-- `serverClosed` client event handler (src/mongo/index.ts lines 74-77). -/
def onServerClosed (s : MongoState) : MongoState :=
  { s with connectionStatus := .disconnected }

/-- `error` client event handler (src/mongo/index.ts lines 79-82). -/
def onClientError (s : MongoState) : MongoState :=
  { s with connectionStatus := .error }

/-- Entry of `MongoDB.connect` (line 90): sets status to CONNECTING before
awaiting the client. -/
def connectEntry (s : MongoState) : MongoState :=
  { s with connectionStatus := .connecting }

/-- Rest of `MongoDB.connect` (lines 93-105): on client success set the db
handle, status CONNECTED, reset `reconnectAttempts`; on throw set status
ERROR and return the failure envelope carrying the thrown error. -/
def connectFinish (s : MongoState) (clientConnect : Outcome Unit) :
    MongoState × OperationResult Unit :=
  match clientConnect with
  | .ok _ =>
      ({ s with db := some s.dbName
                connectionStatus := .connected
                reconnectAttempts := 0 },
       { success := true, message := some "Connected to MongoDB" })
  | .thrown e =>
      ({ s with connectionStatus := .error },
       { success := false, error := some e })

/-- `MongoDB.connect` (src/mongo/index.ts lines 88-106). -/
def connect (s : MongoState) (clientConnect : Outcome Unit) :
    MongoState × OperationResult Unit :=
  connectFinish (connectEntry s) clientConnect

/-- `MongoDB.disconnect` (src/mongo/index.ts lines 111-124): on client close
success set status DISCONNECTED and clear the db handle; on throw leave the
state as it was and return the failure envelope. -/
def disconnect (s : MongoState) (clientClose : Outcome Unit) :
    MongoState × OperationResult Unit :=
  match clientClose with
  | .ok _ =>
      ({ s with connectionStatus := .disconnected, db := none },
       { success := true, message := some "Disconnected from MongoDB" })
  | .thrown e =>
      (s, { success := false, error := some e })

/-- `MongoDB.getConnectionStatus` (lines 129-131). -/
def getConnectionStatus (s : MongoState) : ConnectionStatus :=
  s.connectionStatus

/-- `MongoDB.isConnected` (lines 136-138): status is CONNECTED and the db
handle is non-null. -/
def isConnected (s : MongoState) : Bool :=
  s.connectionStatus == .connected && s.db.isSome

/-- A `Collection<T>` handle, identified by its database and name. -/
structure MongoCollection where
  dbName : String
  name : String
deriving DecidableEq

/-- `MongoDB.getCollection` (lines 143-148): throws when the db handle is
null, otherwise returns the collection handle. -/
def getCollection (s : MongoState) (collectionName : String) :
    Except String MongoCollection :=
  match s.db with
  | none => .error "Not connected to MongoDB. Call connect() first."
  | some dbH => .ok { dbName := dbH, name := collectionName }

end MongoDB

/-- Raw driver result of `collection.insertOne` (`insertedId` already taken
to its string form). -/
structure RawInsertOneResult where
  insertedId : String
  acknowledged : Bool
deriving DecidableEq

/-- `InsertResult` envelope payload from src/types.ts. -/
structure InsertResult where
  insertedId : String
  acknowledged : Bool
deriving DecidableEq

/-- Raw driver result of `collection.insertMany` (ids already stringified in
document order, as `Object.values(result.insertedIds)` yields them). -/
structure RawInsertManyResult where
  insertedIds : List String
  insertedCount : Nat
deriving DecidableEq

/-- Payload of the `insertMany` envelope. -/
structure InsertManyData where
  insertedIds : List String
  insertedCount : Nat
deriving DecidableEq

/-- Raw driver result of `updateOne`/`updateMany`; `upsertedCount` and
`upsertedId` may be absent. -/
structure RawUpdateResult where
  acknowledged : Bool
  modifiedCount : Nat
  matchedCount : Nat
  upsertedCount : Option Nat
  upsertedId : Option String
deriving DecidableEq

/-- `UpdateResult` envelope payload from src/types.ts. -/
structure UpdateResult where
  acknowledged : Bool
  modifiedCount : Nat
  matchedCount : Nat
  upsertedCount : Nat
  upsertedId : Option String
deriving DecidableEq

/-- Raw driver result of `deleteOne`/`deleteMany`, and the `DeleteResult`
envelope payload (the adapter copies it field for field). -/
structure DeleteResult where
  acknowledged : Bool
  deletedCount : Nat
deriving DecidableEq

namespace MongoDB

/-- `MongoDB.insertOne` (src/mongo/index.ts lines 153-177): inside the try,
throw if not connected, get the collection, await the driver; any throw is
caught and becomes a failure envelope.  The third component records whether
the underlying driver call was invoked. -/
def insertOne (T : Type) (s : MongoState) (collectionName : String)
    (document : T) (driver : Outcome RawInsertOneResult) :
    MongoState × OperationResult InsertResult × Bool :=
  (s,
   if isConnected s then
     match getCollection s collectionName with
     | .error e => ({ success := false, error := some e }, false)
     | .ok _ =>
       match driver with
       | .ok result =>
           ({ success := true
              data := some { insertedId := result.insertedId
                             acknowledged := result.acknowledged } }, true)
       | .thrown e => ({ success := false, error := some e }, true)
   else ({ success := false, error := some "Not connected to MongoDB" }, false))

/-- `MongoDB.insertMany` (lines 182-207). -/
def insertMany (T : Type) (s : MongoState) (collectionName : String)
    (documents : List T) (driver : Outcome RawInsertManyResult) :
    MongoState × OperationResult InsertManyData × Bool :=
  (s,
   if isConnected s then
     match getCollection s collectionName with
     | .error e => ({ success := false, error := some e }, false)
     | .ok _ =>
       match driver with
       | .ok result =>
           ({ success := true
              data := some { insertedIds := result.insertedIds
                             insertedCount := result.insertedCount } }, true)
       | .thrown e => ({ success := false, error := some e }, true)
   else ({ success := false, error := some "Not connected to MongoDB" }, false))

/-- `MongoDB.find` (lines 212-238); the query, sort/skip/limit options and
cursor are consumed by the driver, whose `toArray` result is the outcome. -/
def find (T : Type) (s : MongoState) (collectionName : String)
    (query : String) (driver : Outcome (List T)) :
    MongoState × OperationResult (List T) × Bool :=
  (s,
   if isConnected s then
     match getCollection s collectionName with
     | .error e => ({ success := false, error := some e }, false)
     | .ok _ =>
       match driver with
       | .ok documents => ({ success := true, data := some documents }, true)
       | .thrown e => ({ success := false, error := some e }, true)
   else ({ success := false, error := some "Not connected to MongoDB" }, false))

/-- `MongoDB.findOne` (lines 243-262); the driver returns the document or
null. -/
def findOne (T : Type) (s : MongoState) (collectionName : String)
    (query : String) (driver : Outcome (Option T)) :
    MongoState × OperationResult (Option T) × Bool :=
  (s,
   if isConnected s then
     match getCollection s collectionName with
     | .error e => ({ success := false, error := some e }, false)
     | .ok _ =>
       match driver with
       | .ok document => ({ success := true, data := some document }, true)
       | .thrown e => ({ success := false, error := some e }, true)
   else ({ success := false, error := some "Not connected to MongoDB" }, false))

/-- `MongoDB.updateOne` (lines 267-295); `upsertedCount` defaults to 0 when
the driver reports none (`result.upsertedCount || 0`). -/
def updateOne (T : Type) (s : MongoState) (collectionName : String)
    (query : String) (update : String) (driver : Outcome RawUpdateResult) :
    MongoState × OperationResult UpdateResult × Bool :=
  (s,
   if isConnected s then
     match getCollection s collectionName with
     | .error e => ({ success := false, error := some e }, false)
     | .ok _ =>
       match driver with
       | .ok result =>
           ({ success := true
              data := some { acknowledged := result.acknowledged
                             modifiedCount := result.modifiedCount
                             matchedCount := result.matchedCount
                             upsertedCount := result.upsertedCount.getD 0
                             upsertedId := result.upsertedId } }, true)
       | .thrown e => ({ success := false, error := some e }, true)
   else ({ success := false, error := some "Not connected to MongoDB" }, false))

/-- `MongoDB.updateMany` (lines 300-328), same translation as `updateOne`. -/
def updateMany (T : Type) (s : MongoState) (collectionName : String)
    (query : String) (update : String) (driver : Outcome RawUpdateResult) :
    MongoState × OperationResult UpdateResult × Bool :=
  (s,
   if isConnected s then
     match getCollection s collectionName with
     | .error e => ({ success := false, error := some e }, false)
     | .ok _ =>
       match driver with
       | .ok result =>
           ({ success := true
              data := some { acknowledged := result.acknowledged
                             modifiedCount := result.modifiedCount
                             matchedCount := result.matchedCount
                             upsertedCount := result.upsertedCount.getD 0
                             upsertedId := result.upsertedId } }, true)
       | .thrown e => ({ success := false, error := some e }, true)
   else ({ success := false, error := some "Not connected to MongoDB" }, false))

/-- `MongoDB.deleteOne` (lines 333-357). -/
def deleteOne (T : Type) (s : MongoState) (collectionName : String)
    (query : String) (driver : Outcome DeleteResult) :
    MongoState × OperationResult DeleteResult × Bool :=
  (s,
   if isConnected s then
     match getCollection s collectionName with
     | .error e => ({ success := false, error := some e }, false)
     | .ok _ =>
       match driver with
       | .ok result =>
           ({ success := true
              data := some { acknowledged := result.acknowledged
                             deletedCount := result.deletedCount } }, true)
       | .thrown e => ({ success := false, error := some e }, true)
   else ({ success := false, error := some "Not connected to MongoDB" }, false))

/-- `MongoDB.deleteMany` (lines 362-386). -/
def deleteMany (T : Type) (s : MongoState) (collectionName : String)
    (query : String) (driver : Outcome DeleteResult) :
    MongoState × OperationResult DeleteResult × Bool :=
  (s,
   if isConnected s then
     match getCollection s collectionName with
     | .error e => ({ success := false, error := some e }, false)
     | .ok _ =>
       match driver with
       | .ok result =>
           ({ success := true
              data := some { acknowledged := result.acknowledged
                             deletedCount := result.deletedCount } }, true)
       | .thrown e => ({ success := false, error := some e }, true)
   else ({ success := false, error := some "Not connected to MongoDB" }, false))

/-- `MongoDB.countDocuments` (lines 391-410). -/
def countDocuments (T : Type) (s : MongoState) (collectionName : String)
    (query : String) (driver : Outcome Nat) :
    MongoState × OperationResult Nat × Bool :=
  (s,
   if isConnected s then
     match getCollection s collectionName with
     | .error e => ({ success := false, error := some e }, false)
     | .ok _ =>
       match driver with
       | .ok count => ({ success := true, data := some count }, true)
       | .thrown e => ({ success := false, error := some e }, true)
   else ({ success := false, error := some "Not connected to MongoDB" }, false))

/-- `MongoDB.createIndex` (lines 415-435); the driver returns the index
name. -/
def createIndex (s : MongoState) (collectionName : String)
    (indexSpec : List (String × Int)) (driver : Outcome String) :
    MongoState × OperationResult String × Bool :=
  (s,
   if isConnected s then
     match getCollection s collectionName with
     | .error e => ({ success := false, error := some e }, false)
     | .ok _ =>
       match driver with
       | .ok indexName => ({ success := true, data := some indexName }, true)
       | .thrown e => ({ success := false, error := some e }, true)
   else ({ success := false, error := some "Not connected to MongoDB" }, false))

/-- Legacy `MongoDB.addDocument` (lines 438-443): wraps `insertOne` and
throws (`Except.error`) when it fails. -/
def addDocument (T : Type) (s : MongoState) (collectionName : String)
    (document : T) (driver : Outcome RawInsertOneResult) :
    MongoState × Except String Unit :=
  let r := insertOne T s collectionName document driver
  (r.1,
   if r.2.1.success then .ok ()
   else .error (r.2.1.error.getD "Failed to insert document"))

/-- Legacy `MongoDB.getDocuments` (lines 445-451): wraps `find`, throws on
failure, returns `result.data || []` on success. -/
def getDocuments (T : Type) (s : MongoState) (collectionName : String)
    (query : String) (driver : Outcome (List T)) :
    MongoState × Except String (List T) :=
  let r := find T s collectionName query driver
  (r.1,
   if r.2.1.success then .ok (r.2.1.data.getD [])
   else .error (r.2.1.error.getD "Failed to find documents"))

/-- Legacy `MongoDB.deleteDocument` (lines 453-458): wraps `deleteOne` and
throws when it fails. -/
def deleteDocument (T : Type) (s : MongoState) (collectionName : String)
    (query : String) (driver : Outcome DeleteResult) :
    MongoState × Except String Unit :=
  let r := deleteOne T s collectionName query driver
  (r.1,
   if r.2.1.success then .ok ()
   else .error (r.2.1.error.getD "Failed to delete document"))

/-- Legacy `MongoDB.updateDocument` (lines 460-465): wraps `updateOne` with a
`$set` update and throws when it fails. -/
def updateDocument (T : Type) (s : MongoState) (collectionName : String)
    (query : String) (update : String) (driver : Outcome RawUpdateResult) :
    MongoState × Except String Unit :=
  let r := updateOne T s collectionName query update driver
  (r.1,
   if r.2.1.success then .ok ()
   else .error (r.2.1.error.getD "Failed to update document"))

end MongoDB

/-- `FirebaseOptions` from src/types.ts (the service account is consumed by
the SDK and modelled by an identifier). -/
structure FirebaseOptions where
  serviceAccount : String
  databaseURL : Option String := none
  storageBucket : Option String := none
deriving DecidableEq

/-- The fields of the `Firebase` class (src/firebase.ts lines 16-19): the
`firestore` SDK handle (modelled by whether it has been obtained),
`connectionStatus` and `isInitialized`. -/
structure FirebaseState where
  firestore : Bool
  connectionStatus : ConnectionStatus
  isInitialized : Bool
deriving DecidableEq

namespace Firebase

/-- `Firebase` constructor (src/firebase.ts lines 21-43): initializes the
admin SDK and obtains the firestore handle immediately; on success status
becomes CONNECTED and `isInitialized` true, on SDK failure status is set to
ERROR and the error is rethrown (so no object is produced). -/
def construct (options : FirebaseOptions) (sdkInit : Outcome Unit) :
    Except String FirebaseState :=
  match sdkInit with
  | .ok _ =>
      .ok { firestore := true
            connectionStatus := .connected
            isInitialized := true }
  | .thrown e => .error e

/-- `Firebase.getConnectionStatus` (lines 60-62). -/
def getConnectionStatus (s : FirebaseState) : ConnectionStatus :=
  s.connectionStatus

/-- `Firebase.isConnected` (lines 67-69): status is CONNECTED and the SDK is
initialized. -/
def isConnected (s : FirebaseState) : Bool :=
  s.connectionStatus == .connected && s.isInitialized

end Firebase

/-- A Firestore snapshot outcome for a document get: the SDK call throws, or
the snapshot exists (with id and data), or it does not exist. -/
inductive SnapshotOutcome (T : Type) where
  | thrown (msg : String)
  | found (id : String) (docData : T)
  | missing
deriving DecidableEq

/-- A document as returned by the Firebase adapter: `{id, ...data}`. -/
structure FsDoc (T : Type) where
  id : String
  docData : T
deriving DecidableEq

/-- Kind of a `batchWrite` operation (src/firebase.ts lines 362-367). -/
inductive BatchOpKind where
  | set
  | update
  | delete
deriving DecidableEq

/-- One `batchWrite` operation: kind and document path (the data and merge
options are consumed by the SDK batch). -/
structure BatchOp where
  kind : BatchOpKind
  path : String
deriving DecidableEq

/-- Result of setting up a real-time listener: either a live subscription's
unsubscribe function, or the empty unsubscribe function returned from the
catch block. -/
inductive ListenSetup where
  | subscribed
  | emptyUnsubscribe
deriving DecidableEq

namespace Firebase

/-- `Firebase.getDocument` (src/firebase.ts lines 74-98): throw if not
connected; an existing snapshot yields `{success, data: {id,...}}`, a missing
one yields `{success: true, data: null}`; any throw is caught into a failure
envelope. -/
def getDocument (T : Type) (s : FirebaseState) (documentPath : String)
    (snapshot : SnapshotOutcome T) : OperationResult (Option (FsDoc T)) :=
  if isConnected s then
    match snapshot with
    | .found i d => { success := true, data := some (some { id := i, docData := d }) }
    | .missing => { success := true, data := some none }
    | .thrown e => { success := false, error := some e }
  else { success := false, error := some "Firebase not initialized" }

/-- `Firebase.setDocument` (lines 103-123). -/
def setDocument (T : Type) (s : FirebaseState) (documentPath : String)
    (docData : T) (merge : Bool) (sdk : Outcome Unit) : OperationResult Unit :=
  if isConnected s then
    match sdk with
    | .ok _ => { success := true, message := some "Document set successfully" }
    | .thrown e => { success := false, error := some e }
  else { success := false, error := some "Firebase not initialized" }

/-- `Firebase.updateDocument` (lines 128-147). -/
def updateDocument (T : Type) (s : FirebaseState) (documentPath : String)
    (docData : T) (sdk : Outcome Unit) : OperationResult Unit :=
  if isConnected s then
    match sdk with
    | .ok _ => { success := true, message := some "Document updated successfully" }
    | .thrown e => { success := false, error := some e }
  else { success := false, error := some "Firebase not initialized" }

/-- `Firebase.deleteDocument` (lines 152-168). -/
def deleteDocument (s : FirebaseState) (documentPath : String)
    (sdk : Outcome Unit) : OperationResult Unit :=
  if isConnected s then
    match sdk with
    | .ok _ => { success := true, message := some "Document deleted successfully" }
    | .thrown e => { success := false, error := some e }
  else { success := false, error := some "Firebase not initialized" }

/-- `Firebase.addDocument` (lines 173-192); the SDK returns the generated
document id. -/
def addDocument (T : Type) (s : FirebaseState) (collectionPath : String)
    (docData : T) (sdk : Outcome String) : OperationResult String :=
  if isConnected s then
    match sdk with
    | .ok i => { success := true, data := some i }
    | .thrown e => { success := false, error := some e }
  else { success := false, error := some "Firebase not initialized" }

/-- `Firebase.getCollection` (lines 197-248); query building
(where/orderBy/limit/startAfter) happens on the SDK query object and the
outcome is the snapshot's mapped document list. -/
def getCollection (T : Type) (s : FirebaseState) (collectionPath : String)
    (sdk : Outcome (List (FsDoc T))) : OperationResult (List (FsDoc T)) :=
  if isConnected s then
    match sdk with
    | .ok docs => { success := true, data := some docs }
    | .thrown e => { success := false, error := some e }
  else { success := false, error := some "Firebase not initialized" }

/-- `Firebase.listenCollection` (lines 253-321): returns the subscription's
unsubscribe function, or — when not connected or when setup throws — the
empty unsubscribe function from the catch block; it never throws. -/
def listenCollection (s : FirebaseState) (collectionPath : String)
    (setup : Outcome Unit) : ListenSetup :=
  if isConnected s then
    match setup with
    | .ok _ => .subscribed
    | .thrown _ => .emptyUnsubscribe
  else .emptyUnsubscribe

/-- `Firebase.listenDocument` (lines 326-356), same shape as
`listenCollection`. -/
def listenDocument (s : FirebaseState) (documentPath : String)
    (setup : Outcome Unit) : ListenSetup :=
  if isConnected s then
    match setup with
    | .ok _ => .subscribed
    | .thrown _ => .emptyUnsubscribe
  else .emptyUnsubscribe

/-- `Firebase.batchWrite` (lines 361-401); the batch is built from the
operations and committed by the SDK. -/
def batchWrite (s : FirebaseState) (operations : List BatchOp)
    (commit : Outcome Unit) : OperationResult Unit :=
  if isConnected s then
    match commit with
    | .ok _ => { success := true, message := some "Batch write completed successfully" }
    | .thrown e => { success := false, error := some e }
  else { success := false, error := some "Firebase not initialized" }

/-- `Firebase.runTransaction` (lines 406-423). -/
def runTransaction (T : Type) (s : FirebaseState)
    (sdk : Outcome T) : OperationResult T :=
  if isConnected s then
    match sdk with
    | .ok result => { success := true, data := some result }
    | .thrown e => { success := false, error := some e }
  else { success := false, error := some "Firebase not initialized" }

end Firebase

/-- `DBOptions` from src/types.ts restricted to the two backend
configurations (logger options do not affect adapter composition). -/
structure DBOptions where
  mongodb : Option MongoDBOptions := none
  firebase : Option FirebaseOptions := none
deriving DecidableEq

/-- The adapter fields of the `DB` class (src/index.ts lines 9-10). -/
structure DBState where
  mongo : Option MongoState
  firebase : Option FirebaseState
deriving DecidableEq

namespace DB

/-- `DB` constructor (src/index.ts lines 13-43): throws if neither backend
is configured; otherwise creates a MongoDB adapter when `mongodb` is
configured and a Firebase adapter when `firebase` is configured, rethrowing
a Firebase initialization failure. -/
def construct (options : DBOptions) (fbInit : Outcome Unit) :
    Except String DBState :=
  if options.mongodb.isNone && options.firebase.isNone then
    .error "At least one database configuration (mongodb or firebase) must be provided"
  else
    let mongoSt := options.mongodb.map mongoNew
    match options.firebase with
    | none => .ok { mongo := mongoSt, firebase := none }
    | some fbOpts =>
        match Firebase.construct fbOpts fbInit with
        | .ok fb => .ok { mongo := mongoSt, firebase := some fb }
        | .error e => .error e

/-- Payload of the aggregate connect/disconnect envelopes:
`{ mongodb?: boolean; firebase?: boolean }` with a key exactly for each
configured adapter. -/
structure ConnectData where
  mongodb : Option Bool := none
  firebase : Option Bool := none
deriving DecidableEq

/-- The `results` object built by `DB.connect` (src/index.ts lines 61-84):
for MongoDB the success flag of `mongo.connect()`, for Firebase the current
`isConnected()` value. -/
def connectData (st : DBState) (mongoClientConnect : Outcome Unit) :
    ConnectData :=
  { mongodb := st.mongo.map (fun m => (MongoDB.connect m mongoClientConnect).2.success)
    firebase := st.firebase.map Firebase.isConnected }

/-- The `errors` list built by `DB.connect` (src/index.ts lines 62-84): one
entry naming each failing adapter. -/
def connectErrors (st : DBState) (mongoClientConnect : Outcome Unit) :
    List String :=
  (match st.mongo with
   | some m =>
       let r := (MongoDB.connect m mongoClientConnect).2
       if r.success then [] else ["MongoDB: " ++ r.error.getD "Connection failed"]
   | none => []) ++
  (match st.firebase with
   | some fb =>
       if Firebase.isConnected fb then []
       else ["Firebase: Connection failed during initialization"]
   | none => [])

/-- `DB.connect` (src/index.ts lines 60-96): fans out to the configured
adapters, returns the per-adapter results as data, succeeds iff every
configured adapter reports connected, and on failure joins the error list
into the envelope's error. -/
def connect (st : DBState) (mongoClientConnect : Outcome Unit) :
    DBState × OperationResult ConnectData :=
  let st1 : DBState :=
    { st with mongo := st.mongo.map (fun m => (MongoDB.connect m mongoClientConnect).1) }
  let results := connectData st mongoClientConnect
  let allConnected := results.mongodb.getD true && results.firebase.getD true
  (st1,
   if allConnected then
     { success := true, data := some results }
   else
     { success := false
       error := some ("Some databases failed to connect: "
         ++ String.intercalate ", " (connectErrors st mongoClientConnect))
       data := some results })

/-- The `results` object built by `DB.disconnect` (src/index.ts lines
102-122): for MongoDB the success flag of `mongo.disconnect()`, for Firebase
always true. -/
def disconnectData (st : DBState) (mongoClientClose : Outcome Unit) :
    ConnectData :=
  { mongodb := st.mongo.map (fun m => (MongoDB.disconnect m mongoClientClose).2.success)
    firebase := st.firebase.map (fun _ => true) }

/-- The `errors` list built by `DB.disconnect`. -/
def disconnectErrors (st : DBState) (mongoClientClose : Outcome Unit) :
    List String :=
  match st.mongo with
  | some m =>
      let r := (MongoDB.disconnect m mongoClientClose).2
      if r.success then [] else ["MongoDB: " ++ r.error.getD "Disconnection failed"]
  | none => []

/-- `DB.disconnect` (src/index.ts lines 101-134). -/
def disconnect (st : DBState) (mongoClientClose : Outcome Unit) :
    DBState × OperationResult ConnectData :=
  let st1 : DBState :=
    { st with mongo := st.mongo.map (fun m => (MongoDB.disconnect m mongoClientClose).1) }
  let results := disconnectData st mongoClientClose
  let allDisconnected := results.mongodb.getD true && results.firebase.getD true
  (st1,
   if allDisconnected then
     { success := true, data := some results }
   else
     { success := false
       error := some ("Some databases failed to disconnect: "
         ++ String.intercalate ", " (disconnectErrors st mongoClientClose))
       data := some results })

/-- `DB.isConnected` (src/index.ts lines 149-153): an unconfigured backend
counts as connected. -/
def isConnected (st : DBState) : Bool :=
  (match st.mongo with
   | some m => MongoDB.isConnected m
   | none => true) &&
  (match st.firebase with
   | some fb => Firebase.isConnected fb
   | none => true)

end DB

/-- One invocation of a public MongoDB adapter method or client lifecycle
event, with its underlying driver outcome (document payloads instantiated at
`String`). -/
inductive MongoCall where
  | connect (o : Outcome Unit)
  | disconnect (o : Outcome Unit)
  | serverOpening
  | serverClosed
  | clientError
  | insertOne (c : String) (d : String) (o : Outcome RawInsertOneResult)
  | insertMany (c : String) (ds : List String) (o : Outcome RawInsertManyResult)
  | find (c : String) (q : String) (o : Outcome (List String))
  | findOne (c : String) (q : String) (o : Outcome (Option String))
  | updateOne (c : String) (q : String) (u : String) (o : Outcome RawUpdateResult)
  | updateMany (c : String) (q : String) (u : String) (o : Outcome RawUpdateResult)
  | deleteOne (c : String) (q : String) (o : Outcome DeleteResult)
  | deleteMany (c : String) (q : String) (o : Outcome DeleteResult)
  | countDocuments (c : String) (q : String) (o : Outcome Nat)
  | createIndex (c : String) (spec : List (String × Int)) (o : Outcome String)
  | addDocument (c : String) (d : String) (o : Outcome RawInsertOneResult)
  | getDocuments (c : String) (q : String) (o : Outcome (List String))
  | deleteDocument (c : String) (q : String) (o : Outcome DeleteResult)
  | updateDocument (c : String) (q : String) (u : String) (o : Outcome RawUpdateResult)
deriving DecidableEq

/-- The state transformation of one MongoDB adapter call: the new value of
the adapter's fields after the method or event handler runs. -/
def MongoDB.applyCall (s : MongoState) : MongoCall → MongoState
  | .connect o => (MongoDB.connect s o).1
  | .disconnect o => (MongoDB.disconnect s o).1
  | .serverOpening => MongoDB.onServerOpening s
  | .serverClosed => MongoDB.onServerClosed s
  | .clientError => MongoDB.onClientError s
  | .insertOne c d o => (MongoDB.insertOne String s c d o).1
  | .insertMany c ds o => (MongoDB.insertMany String s c ds o).1
  | .find c q o => (MongoDB.find String s c q o).1
  | .findOne c q o => (MongoDB.findOne String s c q o).1
  | .updateOne c q u o => (MongoDB.updateOne String s c q u o).1
  | .updateMany c q u o => (MongoDB.updateMany String s c q u o).1
  | .deleteOne c q o => (MongoDB.deleteOne String s c q o).1
  | .deleteMany c q o => (MongoDB.deleteMany String s c q o).1
  | .countDocuments c q o => (MongoDB.countDocuments String s c q o).1
  | .createIndex c spec o => (MongoDB.createIndex s c spec o).1
  | .addDocument c d o => (MongoDB.addDocument String s c d o).1
  | .getDocuments c q o => (MongoDB.getDocuments String s c q o).1
  | .deleteDocument c q o => (MongoDB.deleteDocument String s c q o).1
  | .updateDocument c q u o => (MongoDB.updateDocument String s c q u o).1

/-- One invocation of a public Firebase adapter method, with its underlying
SDK outcome (document payloads instantiated at `String`). -/
inductive FirebaseCall where
  | getDocument (p : String) (o : SnapshotOutcome String)
  | setDocument (p : String) (d : String) (merge : Bool) (o : Outcome Unit)
  | updateDocument (p : String) (d : String) (o : Outcome Unit)
  | deleteDocument (p : String) (o : Outcome Unit)
  | addDocument (p : String) (d : String) (o : Outcome String)
  | getCollection (p : String) (o : Outcome (List (FsDoc String)))
  | listenCollection (p : String) (o : Outcome Unit)
  | listenDocument (p : String) (o : Outcome Unit)
  | batchWrite (ops : List BatchOp) (o : Outcome Unit)
  | runTransaction (o : Outcome String)
deriving DecidableEq

/-- The state transformation of one Firebase adapter call: no method of the
class ever writes `firestore`, `connectionStatus` or `isInitialized` (they
are assigned only in the constructor), so every call leaves the fields as
they are. -/
def Firebase.applyCall (s : FirebaseState) : FirebaseCall → FirebaseState
  | .getDocument _ _ => s
  | .setDocument _ _ _ _ => s
  | .updateDocument _ _ _ => s
  | .deleteDocument _ _ => s
  | .addDocument _ _ _ => s
  | .getCollection _ _ => s
  | .listenCollection _ _ => s
  | .listenDocument _ _ => s
  | .batchWrite _ _ => s
  | .runTransaction _ => s

/-- Effect of a MongoDB adapter call on the facade state: only the `mongo`
field is touched. -/
def DB.applyMongoCall (st : DBState) (c : MongoCall) : DBState :=
  { st with mongo := st.mongo.map (fun m => MongoDB.applyCall m c) }

/-- Effect of a Firebase adapter call on the facade state: only the
`firebase` field is touched. -/
def DB.applyFirebaseCall (st : DBState) (c : FirebaseCall) : DBState :=
  { st with firebase := st.firebase.map (fun f => Firebase.applyCall f c) }

/-- Concrete MongoDB options used in witnesses and counterexamples. -/
def exMongoOptions : MongoDBOptions :=
  { uri := "mongodb://localhost:27017", dbName := "testdb" }

/-- Concrete Firebase options used in witnesses and counterexamples. -/
def exFirebaseOptions : FirebaseOptions :=
  { serviceAccount := "service-account" }

/-- The Firebase adapter state right after a successful construction. -/
def fbReadyState : FirebaseState :=
  { firestore := true, connectionStatus := .connected, isInitialized := true }

/-- A MongoDB adapter state right after a successful `connect`. -/
def mongoConnectedState : MongoState :=
  (MongoDB.connect (mongoNew exMongoOptions) (.ok ())).1

/-- An envelope is well-formed when its success flag agrees with the absence
of an error: every success envelope in the source carries no error and every
failure envelope carries one. -/
def envelopeConsistent {T : Type} (r : OperationResult T) : Prop :=
  r.success = r.error.isNone

/-- No Firebase method mutates the adapter's fields. -/
theorem firebase_applyCall_id (s : FirebaseState) (c : FirebaseCall) :
    Firebase.applyCall s c = s := by
  cases c <;> rfl

/-- Folding any sequence of Firebase calls leaves the adapter state fixed. -/
theorem firebase_foldl_id (calls : List FirebaseCall) (s : FirebaseState) :
    calls.foldl Firebase.applyCall s = s := by
  induction calls generalizing s with
  | nil => rfl
  | cons c cs ih => rw [List.foldl_cons, firebase_applyCall_id, ih]

/-- One MongoDB call preserves the invariant: status is never RECONNECTING
and the reconnect counter stays 0. -/
theorem mongo_applyCall_inv (s : MongoState) (c : MongoCall)
    (h1 : s.connectionStatus ≠ .reconnecting) (h2 : s.reconnectAttempts = 0) :
    (MongoDB.applyCall s c).connectionStatus ≠ .reconnecting
      ∧ (MongoDB.applyCall s c).reconnectAttempts = 0 := by
  cases c with
  | connect o =>
      cases o <;>
        simp [MongoDB.applyCall, MongoDB.connect, MongoDB.connectEntry,
          MongoDB.connectFinish, h2]
  | disconnect o =>
      cases o <;>
        simp [MongoDB.applyCall, MongoDB.disconnect, h1, h2]
  | serverOpening => exact ⟨by simp [MongoDB.applyCall, MongoDB.onServerOpening], h2⟩
  | serverClosed => exact ⟨by simp [MongoDB.applyCall, MongoDB.onServerClosed], h2⟩
  | clientError => exact ⟨by simp [MongoDB.applyCall, MongoDB.onClientError], h2⟩
  | insertOne c d o => exact ⟨h1, h2⟩
  | insertMany c ds o => exact ⟨h1, h2⟩
  | find c q o => exact ⟨h1, h2⟩
  | findOne c q o => exact ⟨h1, h2⟩
  | updateOne c q u o => exact ⟨h1, h2⟩
  | updateMany c q u o => exact ⟨h1, h2⟩
  | deleteOne c q o => exact ⟨h1, h2⟩
  | deleteMany c q o => exact ⟨h1, h2⟩
  | countDocuments c q o => exact ⟨h1, h2⟩
  | createIndex c spec o => exact ⟨h1, h2⟩
  | addDocument c d o => exact ⟨h1, h2⟩
  | getDocuments c q o => exact ⟨h1, h2⟩
  | deleteDocument c q o => exact ⟨h1, h2⟩
  | updateDocument c q u o => exact ⟨h1, h2⟩

/-- The invariant of `mongo_applyCall_inv` holds along any call sequence. -/
theorem mongo_foldl_inv (calls : List MongoCall) (s : MongoState)
    (h1 : s.connectionStatus ≠ .reconnecting) (h2 : s.reconnectAttempts = 0) :
    (calls.foldl MongoDB.applyCall s).connectionStatus ≠ .reconnecting
      ∧ (calls.foldl MongoDB.applyCall s).reconnectAttempts = 0 := by
  induction calls generalizing s with
  | nil => exact ⟨h1, h2⟩
  | cons c cs ih =>
      rw [List.foldl_cons]
      exact ih _ (mongo_applyCall_inv s c h1 h2).1 (mongo_applyCall_inv s c h1 h2).2

/-- C2 counterexample: constructing `DB` with the empty configuration subset
does not succeed — the constructor throws
"At least one database configuration (mongodb or firebase) must be provided"
(src/index.ts lines 15-17). -/
theorem db_construct_empty_config_throws :
    DB.construct { mongodb := none, firebase := none } (.ok ())
      = Except.error
          "At least one database configuration (mongodb or firebase) must be provided" := by
  rfl

/-- C2 (amended): constructing `DB` with any NONEMPTY subset of the
mongodb/firebase configurations succeeds (given the Firebase SDK initializes
when firebase is configured) and creates exactly the adapters that were
configured, while the empty subset makes the constructor throw. -/
theorem db_construct_nonempty_subsets (mOpts : MongoDBOptions)
    (fOpts : FirebaseOptions) (i : Outcome Unit) (e : String) :
    DB.construct { mongodb := some mOpts, firebase := none } i
        = .ok { mongo := some (mongoNew mOpts), firebase := none }
  ∧ DB.construct { mongodb := none, firebase := some fOpts } (.ok ())
        = .ok { mongo := none, firebase := some fbReadyState }
  ∧ DB.construct { mongodb := some mOpts, firebase := some fOpts } (.ok ())
        = .ok { mongo := some (mongoNew mOpts), firebase := some fbReadyState }
  ∧ DB.construct { mongodb := none, firebase := some fOpts } (.thrown e)
        = .error e
  ∧ DB.construct { mongodb := none, firebase := none } i
        = .error
            "At least one database configuration (mongodb or firebase) must be provided" := by
  refine ⟨rfl, rfl, rfl, rfl, rfl⟩

/-- C4 counterexample: right after a successful construction — before any
operation runs — the Firebase adapter's SDK handle is already obtained and
`isInitialized` is already true (src/firebase.ts lines 26-36), so
construction does initialize the SDK handle. -/
theorem firebase_construct_initializes_eagerly :
    (Firebase.construct exFirebaseOptions (.ok ())).toOption.map FirebaseState.isInitialized
        = some true
  ∧ (Firebase.construct exFirebaseOptions (.ok ())).toOption.map FirebaseState.firestore
        = some true := by
  exact ⟨rfl, rfl⟩

/-- C4 (amended): Backend Adapter B initializes its SDK handle EAGERLY in
the constructor: a successful construction immediately yields a state with
the firestore handle obtained, status CONNECTED and `isInitialized` true,
and an SDK initialization failure makes the constructor rethrow. -/
theorem firebase_construct_eager_init (opts : FirebaseOptions) (e : String) :
    Firebase.construct opts (.ok ()) = .ok fbReadyState
  ∧ (Firebase.construct opts (.ok ())).toOption.map FirebaseState.isInitialized
        = some true
  ∧ Firebase.construct opts (.thrown e) = .error e := by
  exact ⟨rfl, rfl, rfl⟩

/-- C5: the connection status model has exactly the five values
disconnected, connecting, connected, reconnecting, error (pairwise
distinct), and each adapter tracks its status independently: no MongoDB
adapter call changes the facade's Firebase adapter state and no Firebase
adapter call changes the facade's MongoDB adapter state. -/
theorem connection_status_model_independent :
    (∀ c : ConnectionStatus,
        c = .disconnected ∨ c = .connecting ∨ c = .connected
          ∨ c = .reconnecting ∨ c = .error)
  ∧ [ConnectionStatus.disconnected, .connecting, .connected, .reconnecting,
      .error].Nodup
  ∧ (∀ (st : DBState) (c : MongoCall),
        (DB.applyMongoCall st c).firebase = st.firebase)
  ∧ (∀ (st : DBState) (c : FirebaseCall),
        (DB.applyFirebaseCall st c).mongo = st.mongo) := by
  refine ⟨?_, ?_, ?_, ?_⟩
  · intro c; cases c <;> simp
  · decide
  · intro st c; rfl
  · intro st c; rfl

/-- C7: `MongoDB.connect` sets status CONNECTING on entry, then on client
success sets CONNECTED, sets the db handle, resets the reconnect counter and
returns a success envelope, and on client throw sets ERROR and returns a
failure envelope carrying the error; `MongoDB.disconnect` on success sets
DISCONNECTED, clears the db handle (making `isConnected` false) and returns
a success envelope. -/
theorem mongo_connect_disconnect_state_machine (s : MongoState) (e : String) :
    (MongoDB.connectEntry s).connectionStatus = .connecting
  ∧ (MongoDB.connect s (.ok ())).1.connectionStatus = .connected
  ∧ (MongoDB.connect s (.ok ())).1.db = some s.dbName
  ∧ (MongoDB.connect s (.ok ())).1.reconnectAttempts = 0
  ∧ (MongoDB.connect s (.ok ())).2.success = true
  ∧ (MongoDB.connect s (.thrown e)).1.connectionStatus = .error
  ∧ (MongoDB.connect s (.thrown e)).2.success = false
  ∧ (MongoDB.connect s (.thrown e)).2.error = some e
  ∧ (MongoDB.disconnect s (.ok ())).1.connectionStatus = .disconnected
  ∧ (MongoDB.disconnect s (.ok ())).1.db = none
  ∧ MongoDB.isConnected (MongoDB.disconnect s (.ok ())).1 = false
  ∧ (MongoDB.disconnect s (.ok ())).2.success = true := by
  refine ⟨rfl, rfl, rfl, rfl, rfl, rfl, rfl, rfl, rfl, rfl, rfl, rfl⟩

/-- C9: when the adapter is connected, `Firebase.getDocument` reports a
missing document as a SUCCESSFUL lookup with null data (and an existing one
as success with the document); a failure envelope arises only when the SDK
call throws or the adapter is not connected. -/
theorem firebase_getDocument_missing_null (T : Type) (s : FirebaseState)
    (p i : String) (d : T) (e : String)
    (h : Firebase.isConnected s = true) :
    Firebase.getDocument T s p .missing
        = { success := true, data := some none }
  ∧ Firebase.getDocument T s p (.found i d)
        = { success := true, data := some (some { id := i, docData := d }) }
  ∧ (Firebase.getDocument T s p (.thrown e)).success = false
  ∧ (∀ (s' : FirebaseState) (o : SnapshotOutcome T),
        Firebase.isConnected s' = false →
        Firebase.getDocument T s' p o
          = { success := false, error := some "Firebase not initialized" })
  ∧ (∀ (s' : FirebaseState) (o : SnapshotOutcome T),
        (Firebase.getDocument T s' p o).success = false →
        Firebase.isConnected s' = false ∨ ∃ msg, o = .thrown msg) := by
  refine ⟨?_, ?_, ?_, ?_, ?_⟩
  · simp [Firebase.getDocument, h]
  · simp [Firebase.getDocument, h]
  · simp [Firebase.getDocument, h]
  · intro s' o h'; simp [Firebase.getDocument, h']
  · intro s' o h'
    by_cases hc : Firebase.isConnected s' = true
    · right
      cases o with
      | thrown msg => exact ⟨msg, rfl⟩
      | found i' d' => simp [Firebase.getDocument, hc] at h'
      | missing => simp [Firebase.getDocument, hc] at h'
    · left; simpa using hc

/-- C9 witness: the connected post-construction state with a missing
document. -/
theorem firebase_getDocument_missing_null_witness :
    Firebase.isConnected fbReadyState = true
  ∧ Firebase.getDocument Nat fbReadyState "users/u1" .missing
      = { success := true, data := some none } :=
  ⟨rfl,
   (firebase_getDocument_missing_null Nat fbReadyState "users/u1" "u1" 0 "boom" rfl).1⟩

/-- C10: `DB.isConnected` is the conjunction of the configured adapters' own
`isConnected` values, with an unconfigured backend treated as connected
(vacuously true); with a single backend configured it equals that backend's
connectivity. -/
theorem db_isConnected_conjunction (st : DBState) (m : MongoState)
    (f : FirebaseState) :
    DB.isConnected st
        = ((st.mongo.map MongoDB.isConnected).getD true
            && (st.firebase.map Firebase.isConnected).getD true)
  ∧ DB.isConnected { mongo := some m, firebase := some f }
        = (MongoDB.isConnected m && Firebase.isConnected f)
  ∧ DB.isConnected { mongo := some m, firebase := none }
        = MongoDB.isConnected m
  ∧ DB.isConnected { mongo := none, firebase := some f }
        = Firebase.isConnected f
  ∧ DB.isConnected { mongo := none, firebase := none } = true := by
  refine ⟨?_, ?_, ?_, ?_, ?_⟩
  · rcases st with ⟨mo, fo⟩
    cases mo <;> cases fo <;> simp [DB.isConnected]
  · simp [DB.isConnected]
  · simp [DB.isConnected]
  · simp [DB.isConnected]
  · rfl

/-- C6: when the MongoDB adapter is not connected, each of the ten
CRUD/count/index operations returns a failure envelope with the
"Not connected to MongoDB" error, leaves the adapter state (status and db
handle included) unchanged, and never invokes the underlying driver call
(the third component is false). -/
theorem mongo_ops_require_connection (T : Type) (s : MongoState)
    (h : MongoDB.isConnected s = false) :
    (∀ (c : String) (d : T) (o : Outcome RawInsertOneResult),
        MongoDB.insertOne T s c d o
          = (s, { success := false, error := some "Not connected to MongoDB" }, false))
  ∧ (∀ (c : String) (ds : List T) (o : Outcome RawInsertManyResult),
        MongoDB.insertMany T s c ds o
          = (s, { success := false, error := some "Not connected to MongoDB" }, false))
  ∧ (∀ (c q : String) (o : Outcome (List T)),
        MongoDB.find T s c q o
          = (s, { success := false, error := some "Not connected to MongoDB" }, false))
  ∧ (∀ (c q : String) (o : Outcome (Option T)),
        MongoDB.findOne T s c q o
          = (s, { success := false, error := some "Not connected to MongoDB" }, false))
  ∧ (∀ (c q u : String) (o : Outcome RawUpdateResult),
        MongoDB.updateOne T s c q u o
          = (s, { success := false, error := some "Not connected to MongoDB" }, false))
  ∧ (∀ (c q u : String) (o : Outcome RawUpdateResult),
        MongoDB.updateMany T s c q u o
          = (s, { success := false, error := some "Not connected to MongoDB" }, false))
  ∧ (∀ (c q : String) (o : Outcome DeleteResult),
        MongoDB.deleteOne T s c q o
          = (s, { success := false, error := some "Not connected to MongoDB" }, false))
  ∧ (∀ (c q : String) (o : Outcome DeleteResult),
        MongoDB.deleteMany T s c q o
          = (s, { success := false, error := some "Not connected to MongoDB" }, false))
  ∧ (∀ (c q : String) (o : Outcome Nat),
        MongoDB.countDocuments T s c q o
          = (s, { success := false, error := some "Not connected to MongoDB" }, false))
  ∧ (∀ (c : String) (spec : List (String × Int)) (o : Outcome String),
        MongoDB.createIndex s c spec o
          = (s, { success := false, error := some "Not connected to MongoDB" }, false)) := by
  refine ⟨?_, ?_, ?_, ?_, ?_, ?_, ?_, ?_, ?_, ?_⟩ <;>
    intros <;>
    simp [MongoDB.insertOne, MongoDB.insertMany, MongoDB.find, MongoDB.findOne,
      MongoDB.updateOne, MongoDB.updateMany, MongoDB.deleteOne,
      MongoDB.deleteMany, MongoDB.countDocuments, MongoDB.createIndex, h]

/-- C6 witness: the freshly constructed (disconnected) adapter with a
concrete `insertOne` call. -/
theorem mongo_ops_require_connection_witness :
    MongoDB.isConnected (mongoNew exMongoOptions) = false
  ∧ MongoDB.insertOne String (mongoNew exMongoOptions) "users" "doc"
        (.ok { insertedId := "id1", acknowledged := true })
      = (mongoNew exMongoOptions,
         { success := false, error := some "Not connected to MongoDB" }, false) :=
  ⟨rfl,
   (mongo_ops_require_connection String (mongoNew exMongoOptions) rfl).1
     "users" "doc" (.ok { insertedId := "id1", acknowledged := true })⟩

/-- C8: from the initial state, no sequence of adapter calls or client
lifecycle events ever reaches the RECONNECTING status; one MongoDB call
either leaves `reconnectAttempts` unchanged or resets it to 0 (never
increments it); every MongoDB call is independent of `maxReconnectAttempts`
(it is never consulted); and every Firebase adapter state produced by the
constructor stays out of RECONNECTING under any call sequence. -/
theorem no_reconnecting_state_reachable :
    (∀ (options : MongoDBOptions) (calls : List MongoCall),
        (calls.foldl MongoDB.applyCall (mongoNew options)).connectionStatus
            ≠ .reconnecting
      ∧ (calls.foldl MongoDB.applyCall (mongoNew options)).reconnectAttempts = 0)
  ∧ (∀ (s : MongoState) (c : MongoCall),
        (MongoDB.applyCall s c).reconnectAttempts = s.reconnectAttempts
      ∨ (MongoDB.applyCall s c).reconnectAttempts = 0)
  ∧ (∀ (s : MongoState) (c : MongoCall) (m : Nat),
        MongoDB.applyCall { s with maxReconnectAttempts := m } c
          = { MongoDB.applyCall s c with maxReconnectAttempts := m })
  ∧ (∀ (opts : FirebaseOptions) (o : Outcome Unit) (st0 : FirebaseState)
        (calls : List FirebaseCall),
        Firebase.construct opts o = .ok st0 →
        (calls.foldl Firebase.applyCall st0).connectionStatus ≠ .reconnecting) := by
  refine ⟨?_, ?_, ?_, ?_⟩
  · intro options calls
    exact mongo_foldl_inv calls (mongoNew options) (by simp [mongoNew]) rfl
  · intro s c
    cases c with
    | connect o => cases o with
        | ok v => right; rfl
        | thrown e => left; rfl
    | disconnect o => cases o with
        | ok v => left; rfl
        | thrown e => left; rfl
    | serverOpening => left; rfl
    | serverClosed => left; rfl
    | clientError => left; rfl
    | insertOne c d o => left; rfl
    | insertMany c ds o => left; rfl
    | find c q o => left; rfl
    | findOne c q o => left; rfl
    | updateOne c q u o => left; rfl
    | updateMany c q u o => left; rfl
    | deleteOne c q o => left; rfl
    | deleteMany c q o => left; rfl
    | countDocuments c q o => left; rfl
    | createIndex c spec o => left; rfl
    | addDocument c d o => left; rfl
    | getDocuments c q o => left; rfl
    | deleteDocument c q o => left; rfl
    | updateDocument c q u o => left; rfl
  · intro s c m
    cases c with
    | connect o => cases o <;> rfl
    | disconnect o => cases o <;> rfl
    | serverOpening => rfl
    | serverClosed => rfl
    | clientError => rfl
    | insertOne c d o => rfl
    | insertMany c ds o => rfl
    | find c q o => rfl
    | findOne c q o => rfl
    | updateOne c q u o => rfl
    | updateMany c q u o => rfl
    | deleteOne c q o => rfl
    | deleteMany c q o => rfl
    | countDocuments c q o => rfl
    | createIndex c spec o => rfl
    | addDocument c d o => rfl
    | getDocuments c q o => rfl
    | deleteDocument c q o => rfl
    | updateDocument c q u o => rfl
  · intro opts o st0 calls h
    cases o with
    | ok v =>
        cases h
        rw [firebase_foldl_id]
        simp [fbReadyState]
    | thrown e => cases h

/-- C3: `DB.connect` fans out to the configured adapters and merges the
results: the envelope's data holds a per-adapter boolean exactly for each
configured adapter (MongoDB's `connect` success flag, Firebase's
`isConnected`), success holds iff every configured adapter reports
connected, an error is present exactly on failure, and the error message
joins one entry naming each failing adapter while the data still rides
along. -/
theorem db_connect_fanout_merge (st : DBState) (o : Outcome Unit) :
    (DB.connect st o).2.data = some (DB.connectData st o)
  ∧ (DB.connectData st o).mongodb.isSome = st.mongo.isSome
  ∧ (DB.connectData st o).firebase.isSome = st.firebase.isSome
  ∧ (∀ m, st.mongo = some m →
        (DB.connectData st o).mongodb = some ((MongoDB.connect m o).2.success))
  ∧ (∀ fb, st.firebase = some fb →
        (DB.connectData st o).firebase = some (Firebase.isConnected fb))
  ∧ (DB.connect st o).2.success
        = ((DB.connectData st o).mongodb.getD true
            && (DB.connectData st o).firebase.getD true)
  ∧ (DB.connect st o).2.error.isSome = !(DB.connect st o).2.success
  ∧ ((DB.connect st o).2.success = false →
        (DB.connect st o).2.error
          = some ("Some databases failed to connect: "
              ++ String.intercalate ", " (DB.connectErrors st o)))
  ∧ (∀ m, st.mongo = some m → (MongoDB.connect m o).2.success = false →
        ("MongoDB: " ++ (MongoDB.connect m o).2.error.getD "Connection failed")
          ∈ DB.connectErrors st o)
  ∧ (∀ fb, st.firebase = some fb → Firebase.isConnected fb = false →
        "Firebase: Connection failed during initialization"
          ∈ DB.connectErrors st o) := by
  refine ⟨?_, ?_, ?_, ?_, ?_, ?_, ?_, ?_, ?_, ?_⟩
  · simp only [DB.connect]
    split <;> rfl
  · simp [DB.connectData]
  · simp [DB.connectData]
  · intro m hm; simp [DB.connectData, hm]
  · intro fb hf; simp [DB.connectData, hf]
  · simp only [DB.connect]
    split <;> simp_all
  · simp only [DB.connect]
    split <;> rfl
  · simp only [DB.connect]
    split
    · intro h; simp at h
    · intro h; rfl
  · intro m hm hfail
    simp only [DB.connectErrors, hm, hfail, List.mem_append]
    left
    simp [hfail]
  · intro fb hf hfail
    simp only [DB.connectErrors, hf, List.mem_append]
    right
    simp [hfail]

/-- C1 counterexample: the public MongoDB operation `addDocument` does NOT
always resolve to a result envelope — on a freshly constructed
(disconnected) adapter it propagates a thrown error
(src/mongo/index.ts lines 438-443 rethrow `result.error`). -/
theorem mongo_addDocument_throws_offline :
    (MongoDB.addDocument String (mongoNew exMongoOptions) "users" "doc"
        (.ok { insertedId := "id1", acknowledged := true })).2
      = Except.error "Not connected to MongoDB" := by
  rfl

/-- C1 (amended): every public operation whose declared result is an
`OperationResult` resolves to the uniform envelope and never throws — its
success flag is true exactly when no error is carried — but the legacy
MongoDB helpers `addDocument`/`getDocuments`/`deleteDocument`/
`updateDocument` rethrow the wrapped operation's error (they resolve
normally exactly when the wrapped operation succeeds), `MongoDB.getCollection`
throws whenever the db handle is null, and the Firebase listen operations
return an unsubscribe function (falling back to an empty one, never
throwing). -/
theorem public_ops_envelope_discipline (T : Type) :
    (∀ (s : MongoState) (c : String) (d : T) (o : Outcome RawInsertOneResult),
        envelopeConsistent (MongoDB.insertOne T s c d o).2.1)
  ∧ (∀ (s : MongoState) (c : String) (ds : List T) (o : Outcome RawInsertManyResult),
        envelopeConsistent (MongoDB.insertMany T s c ds o).2.1)
  ∧ (∀ (s : MongoState) (c q : String) (o : Outcome (List T)),
        envelopeConsistent (MongoDB.find T s c q o).2.1)
  ∧ (∀ (s : MongoState) (c q : String) (o : Outcome (Option T)),
        envelopeConsistent (MongoDB.findOne T s c q o).2.1)
  ∧ (∀ (s : MongoState) (c q u : String) (o : Outcome RawUpdateResult),
        envelopeConsistent (MongoDB.updateOne T s c q u o).2.1)
  ∧ (∀ (s : MongoState) (c q u : String) (o : Outcome RawUpdateResult),
        envelopeConsistent (MongoDB.updateMany T s c q u o).2.1)
  ∧ (∀ (s : MongoState) (c q : String) (o : Outcome DeleteResult),
        envelopeConsistent (MongoDB.deleteOne T s c q o).2.1)
  ∧ (∀ (s : MongoState) (c q : String) (o : Outcome DeleteResult),
        envelopeConsistent (MongoDB.deleteMany T s c q o).2.1)
  ∧ (∀ (s : MongoState) (c q : String) (o : Outcome Nat),
        envelopeConsistent (MongoDB.countDocuments T s c q o).2.1)
  ∧ (∀ (s : MongoState) (c : String) (spec : List (String × Int)) (o : Outcome String),
        envelopeConsistent (MongoDB.createIndex s c spec o).2.1)
  ∧ (∀ (s : MongoState) (o : Outcome Unit),
        envelopeConsistent (MongoDB.connect s o).2)
  ∧ (∀ (s : MongoState) (o : Outcome Unit),
        envelopeConsistent (MongoDB.disconnect s o).2)
  ∧ (∀ (s : MongoState) (c : String) (d : T) (o : Outcome RawInsertOneResult),
        isOkE (MongoDB.addDocument T s c d o).2
          = (MongoDB.insertOne T s c d o).2.1.success)
  ∧ (∀ (s : MongoState) (c q : String) (o : Outcome (List T)),
        isOkE (MongoDB.getDocuments T s c q o).2
          = (MongoDB.find T s c q o).2.1.success)
  ∧ (∀ (s : MongoState) (c q : String) (o : Outcome DeleteResult),
        isOkE (MongoDB.deleteDocument T s c q o).2
          = (MongoDB.deleteOne T s c q o).2.1.success)
  ∧ (∀ (s : MongoState) (c q u : String) (o : Outcome RawUpdateResult),
        isOkE (MongoDB.updateDocument T s c q u o).2
          = (MongoDB.updateOne T s c q u o).2.1.success)
  ∧ (∀ (s : MongoState) (c : String),
        isOkE (MongoDB.getCollection s c) = s.db.isSome)
  ∧ (∀ (f : FirebaseState) (p : String) (o : SnapshotOutcome T),
        envelopeConsistent (Firebase.getDocument T f p o))
  ∧ (∀ (f : FirebaseState) (p : String) (d : T) (mg : Bool) (o : Outcome Unit),
        envelopeConsistent (Firebase.setDocument T f p d mg o))
  ∧ (∀ (f : FirebaseState) (p : String) (d : T) (o : Outcome Unit),
        envelopeConsistent (Firebase.updateDocument T f p d o))
  ∧ (∀ (f : FirebaseState) (p : String) (o : Outcome Unit),
        envelopeConsistent (Firebase.deleteDocument f p o))
  ∧ (∀ (f : FirebaseState) (p : String) (d : T) (o : Outcome String),
        envelopeConsistent (Firebase.addDocument T f p d o))
  ∧ (∀ (f : FirebaseState) (p : String) (o : Outcome (List (FsDoc T))),
        envelopeConsistent (Firebase.getCollection T f p o))
  ∧ (∀ (f : FirebaseState) (ops : List BatchOp) (o : Outcome Unit),
        envelopeConsistent (Firebase.batchWrite f ops o))
  ∧ (∀ (f : FirebaseState) (o : Outcome T),
        envelopeConsistent (Firebase.runTransaction T f o))
  ∧ (∀ (f : FirebaseState) (p e : String),
        Firebase.listenCollection f p (.thrown e) = .emptyUnsubscribe
      ∧ Firebase.listenDocument f p (.thrown e) = .emptyUnsubscribe)
  ∧ (∀ (st : DBState) (o : Outcome Unit),
        envelopeConsistent (DB.connect st o).2
      ∧ envelopeConsistent (DB.disconnect st o).2) := by
  refine ⟨?_, ?_, ?_, ?_, ?_, ?_, ?_, ?_, ?_, ?_, ?_, ?_, ?_, ?_, ?_, ?_, ?_,
    ?_, ?_, ?_, ?_, ?_, ?_, ?_, ?_, ?_, ?_⟩ <;> intros
  case _ s c d o =>
    cases hS : MongoDB.isConnected s <;> cases hD : s.db <;> cases o <;>
      simp [MongoDB.insertOne, MongoDB.getCollection, envelopeConsistent, hS, hD]
  case _ s c ds o =>
    cases hS : MongoDB.isConnected s <;> cases hD : s.db <;> cases o <;>
      simp [MongoDB.insertMany, MongoDB.getCollection, envelopeConsistent, hS, hD]
  case _ s c q o =>
    cases hS : MongoDB.isConnected s <;> cases hD : s.db <;> cases o <;>
      simp [MongoDB.find, MongoDB.getCollection, envelopeConsistent, hS, hD]
  case _ s c q o =>
    cases hS : MongoDB.isConnected s <;> cases hD : s.db <;> cases o <;>
      simp [MongoDB.findOne, MongoDB.getCollection, envelopeConsistent, hS, hD]
  case _ s c q u o =>
    cases hS : MongoDB.isConnected s <;> cases hD : s.db <;> cases o <;>
      simp [MongoDB.updateOne, MongoDB.getCollection, envelopeConsistent, hS, hD]
  case _ s c q u o =>
    cases hS : MongoDB.isConnected s <;> cases hD : s.db <;> cases o <;>
      simp [MongoDB.updateMany, MongoDB.getCollection, envelopeConsistent, hS, hD]
  case _ s c q o =>
    cases hS : MongoDB.isConnected s <;> cases hD : s.db <;> cases o <;>
      simp [MongoDB.deleteOne, MongoDB.getCollection, envelopeConsistent, hS, hD]
  case _ s c q o =>
    cases hS : MongoDB.isConnected s <;> cases hD : s.db <;> cases o <;>
      simp [MongoDB.deleteMany, MongoDB.getCollection, envelopeConsistent, hS, hD]
  case _ s c q o =>
    cases hS : MongoDB.isConnected s <;> cases hD : s.db <;> cases o <;>
      simp [MongoDB.countDocuments, MongoDB.getCollection, envelopeConsistent, hS, hD]
  case _ s c spec o =>
    cases hS : MongoDB.isConnected s <;> cases hD : s.db <;> cases o <;>
      simp [MongoDB.createIndex, MongoDB.getCollection, envelopeConsistent, hS, hD]
  case _ s o =>
    cases o <;>
      simp [MongoDB.connect, MongoDB.connectEntry, MongoDB.connectFinish,
        envelopeConsistent]
  case _ s o =>
    cases o <;> simp [MongoDB.disconnect, envelopeConsistent]
  case _ s c d o =>
    simp only [MongoDB.addDocument]
    split <;> simp_all [isOkE]
  case _ s c q o =>
    simp only [MongoDB.getDocuments]
    split <;> simp_all [isOkE]
  case _ s c q o =>
    simp only [MongoDB.deleteDocument]
    split <;> simp_all [isOkE]
  case _ s c q u o =>
    simp only [MongoDB.updateDocument]
    split <;> simp_all [isOkE]
  case _ s c =>
    cases hD : s.db <;> simp [MongoDB.getCollection, isOkE, hD]
  case _ f p o =>
    cases hS : Firebase.isConnected f <;> cases o <;>
      simp [Firebase.getDocument, envelopeConsistent, hS]
  case _ f p d mg o =>
    cases hS : Firebase.isConnected f <;> cases o <;>
      simp [Firebase.setDocument, envelopeConsistent, hS]
  case _ f p d o =>
    cases hS : Firebase.isConnected f <;> cases o <;>
      simp [Firebase.updateDocument, envelopeConsistent, hS]
  case _ f p o =>
    cases hS : Firebase.isConnected f <;> cases o <;>
      simp [Firebase.deleteDocument, envelopeConsistent, hS]
  case _ f p d o =>
    cases hS : Firebase.isConnected f <;> cases o <;>
      simp [Firebase.addDocument, envelopeConsistent, hS]
  case _ f p o =>
    cases hS : Firebase.isConnected f <;> cases o <;>
      simp [Firebase.getCollection, envelopeConsistent, hS]
  case _ f ops o =>
    cases hS : Firebase.isConnected f <;> cases o <;>
      simp [Firebase.batchWrite, envelopeConsistent, hS]
  case _ f o =>
    cases hS : Firebase.isConnected f <;> cases o <;>
      simp [Firebase.runTransaction, envelopeConsistent, hS]
  case _ f p e =>
    cases hS : Firebase.isConnected f <;>
      simp [Firebase.listenCollection, Firebase.listenDocument, hS]
  case _ st o =>
    constructor
    · simp only [DB.connect]
      split <;> simp [envelopeConsistent]
    · simp only [DB.disconnect]
      split <;> simp [envelopeConsistent]

end DbSpec
